import Mathlib

/-!
Shallow embedding of the flask-project user/auth service.

The embedding follows the source files:
  * src/resources/user.py  — the five routes (register, login, logout,
    get/delete user, refresh);
  * src/app.py             — the JWT callbacks (expired / invalid / missing /
    fresh-required / revoked responses) and the blocklist membership check;
  * src/migrations/versions/ffc4b5ea7515_increase_password_column_length.py
    — the captured Alembic migration.

Parts of the repository referenced by src but not present in it
(models.py, schemas.py, blocklist.py, the passlib and flask-jwt-extended
libraries) are modelled from the specification; every such definition
carries a doc comment saying so.
-/

/-! ## JSON-ish response values -/

/-- A JSON-like scalar value appearing in a response body. -/
inductive Value where
  | nat (n : Nat)
  | str (s : String)
  | bool (b : Bool)
deriving DecidableEq, Repr

/-- An HTTP response: a status code and a flat JSON object body,
represented as an association list of field names to values. -/
structure Response where
  status : Nat
  body : List (String × Value)
deriving DecidableEq, Repr

/-- Look up a field of a response body by key. -/
def bodyLookup (r : Response) (k : String) : Option Value :=
  (r.body.find? (fun kv => kv.1 == k)).map (fun kv => kv.2)

/-! ## Data model -/

/-- Modelled from the spec: the persisted user entity of models.py
(not present under src), per spec section 3: system-assigned integer id,
username, and a password field holding a hash. -/
structure UserModel where
  id : Nat
  username : String
  password : String
deriving DecidableEq, Repr

/-- Modelled from the spec: the external passlib pbkdf2_sha256 interface
used by src/resources/user.py — a hash function and a verification
routine.  The routes are parameterized over it. -/
structure Pbkdf2Sha256 where
  hash : String → String
  verify : String → String → Bool

/-- Modelled from the spec: a concrete instance of the pbkdf2_sha256
interface used to evaluate the routes on concrete inputs.  The encoded
hash is the plaintext behind a scheme tag, so verification succeeds
exactly on the original plaintext and the hash never equals the
plaintext (PBKDF2-SHA256 encodings always carry the scheme tag). -/
def modelPbkdf2 : Pbkdf2Sha256 where
  hash := fun p => "$pbkdf2-sha256$" ++ p
  verify := fun p h => h == "$pbkdf2-sha256$" ++ p

/-- Token type claim of a JWT: access or refresh. -/
inductive TokenType where
  | access
  | refresh
deriving DecidableEq, Repr

/-- Modelled from the spec: an issued JWT as seen by flask-jwt-extended.
`identity` is the subject claim (the user id), `jti` the unique token
identifier (uuid generation is modelled by a per-state counter, so `jti`
is a number), `fresh` the freshness claim.  `valid` abstracts signature
well-formedness and `expired` the expiry check, both performed by the
external JWT library. -/
structure Token where
  identity : Nat
  jti : Nat
  tokenType : TokenType
  fresh : Bool
  valid : Bool
  expired : Bool
deriving DecidableEq, Repr

/-- The mutable state of the running service: the users table, the
auto-increment id counter, the in-memory revocation blocklist and the
jti-generation counter. -/
structure AppState where
  users : List UserModel
  nextId : Nat
  blocklist : Finset Nat
  jtiCounter : Nat
deriving DecidableEq

/-- The initial state: empty users table, empty blocklist. -/
def AppState.init : AppState :=
  { users := [], nextId := 1, blocklist := ∅, jtiCounter := 0 }

/-! ## Revocation Registry (blocklist.py, modelled from the spec) -/

/-- Modelled from the spec: blocklist.py (not present under src) holds
`BLOCKLIST`, an in-memory set of revoked token identifiers; `add` inserts
an identifier and is idempotent. -/
def blocklistAdd (b : Finset Nat) (j : Nat) : Finset Nat :=
  insert j b

/-- From src/app.py `check_if_token_in_blocklist`: a token is blocked
exactly when its jti claim is in the blocklist. -/
def check_if_token_in_blocklist (s : AppState) (jti : Nat) : Bool :=
  decide (jti ∈ s.blocklist)

/-! ## Canned responses (messages from src/resources/user.py and the
five JWT callbacks of src/app.py) -/

/-- From src/resources/user.py: the 409 response of register. -/
def conflictResponse : Response :=
  { status := 409, body := [("message", Value.str "A user with that username already exists.")] }

/-- From src/resources/user.py: the 201 response of register. -/
def createdResponse : Response :=
  { status := 201, body := [("message", Value.str "User created successfully.")] }

/-- From src/resources/user.py: the 401 response of login on any failure. -/
def invalidCredentialsResponse : Response :=
  { status := 401, body := [("message", Value.str "Invalid credentials.")] }

/-- From src/resources/user.py: the 200 response of logout. -/
def logoutOkResponse : Response :=
  { status := 200, body := [("message", Value.str "Successfully logged out")] }

/-- From src/resources/user.py: the 200 response of delete user. -/
def deleteOkResponse : Response :=
  { status := 200, body := [("message", Value.str "User deleted.")] }

/-- From flask `get_or_404`: absence of the looked-up id is a 404. -/
def notFoundResponse : Response :=
  { status := 404, body := [] }

/-- From src/app.py `expired_token_callback`. -/
def expiredTokenResponse : Response :=
  { status := 401, body := [("message", Value.str "The token has expired."), ("error", Value.str "token_expired")] }

/-- From src/app.py `invalid_token_callback`. -/
def invalidTokenResponse : Response :=
  { status := 401, body := [("message", Value.str "Signature verification failed."), ("error", Value.str "invalid_token")] }

/-- From src/app.py `missing_token_callback`. -/
def missingTokenResponse : Response :=
  { status := 401, body := [("description", Value.str "Request does not contain an access token."), ("error", Value.str "authorization_required")] }

/-- From src/app.py `token_not_fresh_callback`. -/
def freshTokenRequiredResponse : Response :=
  { status := 401, body := [("description", Value.str "The token is not fresh."), ("error", Value.str "fresh_token_required")] }

/-- From src/app.py `revoked_token_callback`. -/
def revokedTokenResponse : Response :=
  { status := 401, body := [("description", Value.str "The token has been revoked."), ("error", Value.str "token_revoked")] }

/-! ## Auth middleware (flask-jwt-extended, modelled from the spec) -/

/-- Modelled from the spec: the token checks that flask-jwt-extended
performs before a protected route runs, producing the callback responses
wired in src/app.py.  Per spec section 4.5 the revocation check is
performed on every protected route; the refresh route additionally
rejects non-refresh tokens (spec section 4.4), a failure routed to the
invalid-token callback. -/
def jwtCheck (refreshRequired : Bool) (t : Token) (s : AppState) : Option Response :=
  if t.valid = false then some invalidTokenResponse
  else if t.expired = true then some expiredTokenResponse
  else if check_if_token_in_blocklist s t.jti then some revokedTokenResponse
  else
    match refreshRequired, t.tokenType with
    | true, TokenType.access => some invalidTokenResponse
    | _, _ => none

/-- Modelled from the spec: `jwt_required` — a missing token yields the
authorization-required callback of src/app.py, otherwise the token checks
run. -/
def jwtRequired (refreshRequired : Bool) (tok : Option Token) (s : AppState) : Option Response :=
  match tok with
  | none => some missingTokenResponse
  | some t => jwtCheck refreshRequired t s

/-- Modelled from the spec: flask-jwt-extended `create_access_token` —
issues an access token with the given identity and freshness and a fresh
jti drawn from the counter. -/
def create_access_token (identity : Nat) (fresh : Bool) (s : AppState) : Token × AppState :=
  ({ identity := identity, jti := s.jtiCounter, tokenType := TokenType.access,
     fresh := fresh, valid := true, expired := false },
   { s with jtiCounter := s.jtiCounter + 1 })

/-- Modelled from the spec: flask-jwt-extended `create_refresh_token`. -/
def create_refresh_token (identity : Nat) (s : AppState) : Token × AppState :=
  ({ identity := identity, jti := s.jtiCounter, tokenType := TokenType.refresh,
     fresh := false, valid := true, expired := false },
   { s with jtiCounter := s.jtiCounter + 1 })

/-! ## Routes (src/resources/user.py) -/

/-- Outcome of the persistence layer commit in register.  The source
wraps `db.session.add` / `db.session.commit` in no try/except, so a
failing commit propagates its raw storage error. -/
inductive CommitOutcome where
  | success
  | failure (err : String)
deriving DecidableEq, Repr

/-- From src/resources/user.py `UserRegister.post`: pre-check the
username, then insert the user with the pbkdf2-sha256 hash of the
password and commit.  A commit failure is not caught and propagates as
the raw storage error (`Except.error`). -/
def UserRegister_post (alg : Pbkdf2Sha256) (username password : String)
    (commit : CommitOutcome) (s : AppState) : Except String (Response × AppState) :=
  if (s.users.find? (fun u => u.username == username)).isSome then
    Except.ok (conflictResponse, s)
  else
    match commit with
    | CommitOutcome.success =>
        Except.ok (createdResponse,
          { s with
              users := s.users ++ [{ id := s.nextId, username := username,
                                     password := alg.hash password }],
              nextId := s.nextId + 1 })
    | CommitOutcome.failure e => Except.error e

/-- Result of the login route: either the pair of issued tokens (HTTP
200) or an error response. -/
inductive LoginResult where
  | ok (accessToken refreshToken : Token)
  | err (resp : Response)
deriving DecidableEq, Repr

/-- HTTP status of a login result. -/
def LoginResult.status : LoginResult → Nat
  | LoginResult.ok _ _ => 200
  | LoginResult.err r => r.status

/-- From src/resources/user.py `UserLogin.post`: look the user up by
username; if present and the password verifies, issue a fresh access
token and a refresh token, else answer 401 with the generic message. -/
def UserLogin_post (alg : Pbkdf2Sha256) (username password : String)
    (s : AppState) : LoginResult × AppState :=
  match s.users.find? (fun u => u.username == username) with
  | some user =>
      if alg.verify password user.password then
        let a := create_access_token user.id true s
        let r := create_refresh_token user.id a.2
        (LoginResult.ok a.1 r.1, r.2)
      else (LoginResult.err invalidCredentialsResponse, s)
  | none => (LoginResult.err invalidCredentialsResponse, s)

/-- From src/resources/user.py `UserLogout.post`: behind `jwt_required`,
add the token's jti to the blocklist and answer 200. -/
def UserLogout_post (tok : Option Token) (s : AppState) : Response × AppState :=
  match tok with
  | none => (missingTokenResponse, s)
  | some t =>
      match jwtCheck false t s with
      | some err => (err, s)
      | none => (logoutOkResponse, { s with blocklist := blocklistAdd s.blocklist t.jti })

/-- From src/resources/user.py `User.get`: `get_or_404` by id, then dump
through the user schema.  Modelled from the spec for schemas.py (not
present under src): the dump contains the id and username fields and the
password field is write-only, never dumped. -/
def User_get (user_id : Nat) (s : AppState) : Response × AppState :=
  match s.users.find? (fun u => u.id == user_id) with
  | none => (notFoundResponse, s)
  | some u =>
      ({ status := 200, body := [("id", Value.nat u.id), ("username", Value.str u.username)] }, s)

/-- From src/resources/user.py `User.delete`: `get_or_404` by id, then
delete the row and commit. -/
def User_delete (user_id : Nat) (s : AppState) : Response × AppState :=
  match s.users.find? (fun u => u.id == user_id) with
  | none => (notFoundResponse, s)
  | some _ =>
      (deleteOkResponse, { s with users := s.users.filter (fun v => v.id != user_id) })

/-- Result of the refresh route: either a new access token (HTTP 200) or
an error response. -/
inductive RefreshResult where
  | ok (accessToken : Token)
  | err (resp : Response)
deriving DecidableEq, Repr

/-- HTTP status of a refresh result. -/
def RefreshResult.status : RefreshResult → Nat
  | RefreshResult.ok _ => 200
  | RefreshResult.err r => r.status

/-- From src/resources/user.py `TokenRefresh.post`: behind
`jwt_required(refresh=True)`, issue a non-fresh access token for the
token's identity, then add the refresh token's own jti to the
blocklist. -/
def TokenRefresh_post (tok : Option Token) (s : AppState) : RefreshResult × AppState :=
  match tok with
  | none => (RefreshResult.err missingTokenResponse, s)
  | some t =>
      match jwtCheck true t s with
      | some err => (RefreshResult.err err, s)
      | none =>
          let a := create_access_token t.identity false s
          (RefreshResult.ok a.1, { a.2 with blocklist := blocklistAdd a.2.blocklist t.jti })

/-! ## Whole-system operations -/

/-- One request to the service, with its inputs (for register, the
commit outcome supplied by the persistence layer). -/
inductive Op where
  | register (username password : String) (commit : CommitOutcome)
  | login (username password : String)
  | logout (tok : Option Token)
  | getUser (user_id : Nat)
  | deleteUser (user_id : Nat)
  | refresh (tok : Option Token)
deriving DecidableEq, Repr

/-- Whether an operation is one of the two blocklist mutators. -/
def Op.isBlocklistMutator : Op → Bool
  | Op.logout _ => true
  | Op.refresh _ => true
  | _ => false

/-- The state transition of one request.  A register whose commit fails
leaves the state unchanged (the transaction is rolled back and the error
propagates). -/
def applyOp (alg : Pbkdf2Sha256) (op : Op) (s : AppState) : AppState :=
  match op with
  | Op.register u p c =>
      match UserRegister_post alg u p c s with
      | Except.ok x => x.2
      | Except.error _ => s
  | Op.login u p => (UserLogin_post alg u p s).2
  | Op.logout tok => (UserLogout_post tok s).2
  | Op.getUser i => (User_get i s).2
  | Op.deleteUser i => (User_delete i s).2
  | Op.refresh tok => (TokenRefresh_post tok s).2

/-- The state after a sequence of requests. -/
def applyOps (alg : Pbkdf2Sha256) (ops : List Op) (s : AppState) : AppState :=
  ops.foldl (fun st op => applyOp alg op st) s

/-! ## Sample data for concrete evaluations -/

/-- A stored user as register would create it. -/
def aliceStored : UserModel :=
  { id := 1, username := "alice", password := modelPbkdf2.hash "pw1" }

/-- A sample state holding one registered user. -/
def sampleState : AppState :=
  { users := [aliceStored], nextId := 2, blocklist := ∅, jtiCounter := 0 }

/-! ## The captured Alembic migration
(src/migrations/versions/ffc4b5ea7515_increase_password_column_length.py) -/

/-- A SQL column type as named in the migration. -/
inductive ColType where
  | integer
  | varchar (length : Nat)
deriving DecidableEq, Repr

/-- A column of a table, with the attributes the migration mentions. -/
structure Column where
  name : String
  ctype : ColType
  nullable : Bool
  autoincrement : Bool
deriving DecidableEq, Repr

/-- A table constraint as declared by the migration. -/
inductive Constraint where
  | primaryKeyConstraint (name : String) (column : String)
  | uniqueConstraint (name : String) (column : String)
deriving DecidableEq, Repr

/-- A table: a name, columns and constraints. -/
structure Table where
  name : String
  columns : List Column
  constraints : List Constraint
deriving DecidableEq, Repr

/-- A database schema: the list of its tables. -/
abbrev Schema := List Table

/-- Alembic `op.drop_table`. -/
def drop_table (tableName : String) (schema : Schema) : Schema :=
  schema.filter (fun t => t.name != tableName)

/-- Alembic `op.create_table`. -/
def create_table (t : Table) (schema : Schema) : Schema :=
  schema ++ [t]

/-- How `alter_column` rewrites one table: on the named table, the named
column's type is replaced; any other table is untouched. -/
def alterTableFn (tableName colName : String) (newType : ColType) (t : Table) : Table :=
  if t.name == tableName then
    { t with columns := t.columns.map (fun c =>
        if c.name == colName then { c with ctype := newType } else c) }
  else t

/-- Alembic `batch_alter_table(...).alter_column(..., type_=...)`: change
the type of one column of one table, leaving everything else alone. -/
def alter_column (tableName colName : String) (newType : ColType) (schema : Schema) : Schema :=
  schema.map (alterTableFn tableName colName newType)

/-- The legacy `User` table recreated by the migration's downgrade
(columns and constraints exactly as in the source). -/
def legacyUserTable : Table :=
  { name := "User",
    columns :=
      [ { name := "id", ctype := ColType.integer, nullable := false, autoincrement := true },
        { name := "username", ctype := ColType.varchar 80, nullable := false, autoincrement := false },
        { name := "email", ctype := ColType.varchar 120, nullable := false, autoincrement := false } ],
    constraints :=
      [ Constraint.primaryKeyConstraint "User_pkey" "id",
        Constraint.uniqueConstraint "User_email_key" "email",
        Constraint.uniqueConstraint "User_username_key" "username" ] }

/-- From the migration source, `upgrade()`: drop the legacy `User` table,
then widen `users.password` from VARCHAR(80) to VARCHAR(200). -/
def migration_upgrade (schema : Schema) : Schema :=
  alter_column "users" "password" (ColType.varchar 200) (drop_table "User" schema)

/-- From the migration source, `downgrade()`: narrow `users.password`
back to VARCHAR(80), then recreate the legacy `User` table. -/
def migration_downgrade (schema : Schema) : Schema :=
  create_table legacyUserTable (alter_column "users" "password" (ColType.varchar 80) schema)

/-- Look a table up by name. -/
def lookup_table (schema : Schema) (n : String) : Option Table :=
  schema.find? (fun t => t.name == n)

/-- Look a column of a table up by name. -/
def lookup_column (t : Table) (n : String) : Option Column :=
  t.columns.find? (fun c => c.name == n)

/-- The pre-migration `users` table per spec section 6.2: id integer
primary key, username VARCHAR(80) unique required, password VARCHAR(80)
required. -/
def usersTable80 : Table :=
  { name := "users",
    columns :=
      [ { name := "id", ctype := ColType.integer, nullable := false, autoincrement := true },
        { name := "username", ctype := ColType.varchar 80, nullable := false, autoincrement := false },
        { name := "password", ctype := ColType.varchar 80, nullable := false, autoincrement := false } ],
    constraints :=
      [ Constraint.primaryKeyConstraint "users_pkey" "id",
        Constraint.uniqueConstraint "users_username_key" "username" ] }

/-- A concrete pre-upgrade schema: the `users` table alongside the
legacy `User` table the upgrade drops. -/
def demoSchema : Schema := [usersTable80, legacyUserTable]

/-- Whether a register outcome surfaced as the domain-level 409 conflict. -/
def surfacedAsConflict : Except String (Response × AppState) → Bool
  | Except.ok (r, _) => r.status == 409
  | Except.error _ => false

/-! ## Blocklist evolution helpers -/

lemma applyOp_register_blocklist (alg : Pbkdf2Sha256) (u p : String) (c : CommitOutcome)
    (s : AppState) : (applyOp alg (Op.register u p c) s).blocklist = s.blocklist := by
  cases hf : (s.users.find? (fun v => v.username == u)).isSome
  · cases c <;> simp [applyOp, UserRegister_post, hf]
  · simp [applyOp, UserRegister_post, hf]

lemma applyOp_login_blocklist (alg : Pbkdf2Sha256) (u p : String) (s : AppState) :
    (applyOp alg (Op.login u p) s).blocklist = s.blocklist := by
  cases hf : s.users.find? (fun v => v.username == u) with
  | none => simp [applyOp, UserLogin_post, hf]
  | some usr =>
      cases hv : alg.verify p usr.password <;>
        simp [applyOp, UserLogin_post, hf, hv, create_access_token, create_refresh_token]

lemma applyOp_getUser_blocklist (alg : Pbkdf2Sha256) (i : Nat) (s : AppState) :
    (applyOp alg (Op.getUser i) s).blocklist = s.blocklist := by
  cases hf : s.users.find? (fun v => v.id == i) <;> simp [applyOp, User_get, hf]

lemma applyOp_deleteUser_blocklist (alg : Pbkdf2Sha256) (i : Nat) (s : AppState) :
    (applyOp alg (Op.deleteUser i) s).blocklist = s.blocklist := by
  cases hf : s.users.find? (fun v => v.id == i) <;> simp [applyOp, User_delete, hf]

lemma applyOp_blocklist_cases (alg : Pbkdf2Sha256) (op : Op) (s : AppState) :
    (applyOp alg op s).blocklist = s.blocklist ∨
    ∃ j, (applyOp alg op s).blocklist = insert j s.blocklist := by
  cases op with
  | register u p c => exact Or.inl (applyOp_register_blocklist alg u p c s)
  | login u p => exact Or.inl (applyOp_login_blocklist alg u p s)
  | getUser i => exact Or.inl (applyOp_getUser_blocklist alg i s)
  | deleteUser i => exact Or.inl (applyOp_deleteUser_blocklist alg i s)
  | logout tok =>
      cases tok with
      | none => exact Or.inl rfl
      | some t =>
          cases hc : jwtCheck false t s with
          | some e => exact Or.inl (by simp [applyOp, UserLogout_post, hc])
          | none => exact Or.inr ⟨t.jti, by simp [applyOp, UserLogout_post, hc, blocklistAdd]⟩
  | refresh tok =>
      cases tok with
      | none => exact Or.inl rfl
      | some t =>
          cases hc : jwtCheck true t s with
          | some e => exact Or.inl (by simp [applyOp, TokenRefresh_post, hc])
          | none =>
              exact Or.inr ⟨t.jti,
                by simp [applyOp, TokenRefresh_post, hc, create_access_token, blocklistAdd]⟩

lemma blocklist_subset_applyOp (alg : Pbkdf2Sha256) (op : Op) (s : AppState) :
    s.blocklist ⊆ (applyOp alg op s).blocklist := by
  rcases applyOp_blocklist_cases alg op s with h | ⟨j, h⟩
  · rw [h]
  · rw [h]; exact Finset.subset_insert _ _

lemma blocklist_subset_applyOps (alg : Pbkdf2Sha256) (ops : List Op) (s : AppState) :
    s.blocklist ⊆ (applyOps alg ops s).blocklist := by
  induction ops generalizing s with
  | nil => simp [applyOps]
  | cons op rest ih =>
      have h1 := blocklist_subset_applyOp alg op s
      have h2 := ih (applyOp alg op s)
      simp only [applyOps, List.foldl_cons] at h2 ⊢
      exact h1.trans h2

lemma applyOp_nonmutator_blocklist (alg : Pbkdf2Sha256) (op : Op) (s : AppState)
    (h : op.isBlocklistMutator = false) :
    (applyOp alg op s).blocklist = s.blocklist := by
  cases op with
  | register u p c => exact applyOp_register_blocklist alg u p c s
  | login u p => exact applyOp_login_blocklist alg u p s
  | getUser i => exact applyOp_getUser_blocklist alg i s
  | deleteUser i => exact applyOp_deleteUser_blocklist alg i s
  | logout tok => simp [Op.isBlocklistMutator] at h
  | refresh tok => simp [Op.isBlocklistMutator] at h

/-! ## Frame helpers for delete -/

lemma User_delete_blocklist (user_id : Nat) (s : AppState) :
    (User_delete user_id s).2.blocklist = s.blocklist := by
  cases hf : s.users.find? (fun v => v.id == user_id) <;> simp [User_delete, hf]

lemma jwtCheck_blocklist_congr (refreshRequired : Bool) (t : Token) (s1 s2 : AppState)
    (h : s1.blocklist = s2.blocklist) :
    jwtCheck refreshRequired t s1 = jwtCheck refreshRequired t s2 := by
  simp only [jwtCheck, check_if_token_in_blocklist, h]

/-! ## Migration lemmas -/

lemma find?_filter_of_imp {α : Type} (p q : α → Bool) (h : ∀ a, q a = true → p a = true) :
    ∀ l : List α, (l.filter p).find? q = l.find? q := by
  intro l
  induction l with
  | nil => rfl
  | cons a rest ih =>
      by_cases hp : p a = true
      · rw [List.filter_cons_of_pos hp]
        by_cases hq : q a = true
        · rw [List.find?_cons_of_pos _ hq, List.find?_cons_of_pos _ hq]
        · rw [List.find?_cons_of_neg _ hq, List.find?_cons_of_neg _ hq]
          exact ih
      · rw [List.filter_cons_of_neg hp]
        have hq : ¬ q a = true := fun e => hp (h a e)
        rw [List.find?_cons_of_neg _ hq]
        exact ih

lemma alterTableFn_name (tn cn : String) (ty : ColType) (t : Table) :
    (alterTableFn tn cn ty t).name = t.name := by
  unfold alterTableFn
  split <;> rfl

lemma lookup_table_alter (tn cn : String) (ty : ColType) (s : Schema) (n : String) :
    lookup_table (alter_column tn cn ty s) n
      = (lookup_table s n).map (alterTableFn tn cn ty) := by
  unfold lookup_table alter_column
  rw [List.find?_map]
  have hpred : ((fun t : Table => t.name == n) ∘ alterTableFn tn cn ty)
      = (fun t : Table => t.name == n) := by
    funext t
    simp [Function.comp, alterTableFn_name]
  rw [hpred]

lemma lookup_table_drop_self (m : String) (s : Schema) :
    lookup_table (drop_table m s) m = none := by
  unfold lookup_table drop_table
  rw [List.find?_eq_none]
  intro t ht
  have h2 := (List.mem_filter.mp ht).2
  simp only [bne_iff_ne, ne_eq] at h2
  simp [h2]

lemma lookup_table_drop_other (m n : String) (h : n ≠ m) (s : Schema) :
    lookup_table (drop_table m s) n = lookup_table s n := by
  unfold lookup_table drop_table
  apply find?_filter_of_imp
  intro t ht
  have : t.name = n := by simpa using ht
  simp [this, h]

lemma lookup_column_alter (cn : String) (ty : ColType) (t : Table) (c : Column)
    (h : lookup_column t cn = some c) :
    lookup_column
        { t with columns := t.columns.map (fun c =>
            if c.name == cn then { c with ctype := ty } else c) } cn
      = some { c with ctype := ty } := by
  unfold lookup_column at h ⊢
  simp only
  rw [List.find?_map]
  have hpred : ((fun c : Column => c.name == cn)
        ∘ (fun c : Column => if c.name == cn then { c with ctype := ty } else c))
      = (fun c : Column => c.name == cn) := by
    funext c
    by_cases hc : c.name == cn
    · simp [Function.comp, hc]
    · simp [Function.comp, hc]
  rw [hpred, h]
  have hc := List.find?_some h
  simp only at hc
  have hceq : c.name = cn := by simpa using hc
  simp [hceq]

/-- Claim C1: register returns 409 and leaves the store unchanged when the
username is taken, and otherwise stores a new user whose password field is
the pbkdf2-sha256 hash of the supplied password (never the plaintext) and
returns 201. -/
theorem register_conflict_or_create (alg : Pbkdf2Sha256) (username password : String)
    (s : AppState) :
    ((s.users.find? (fun u => u.username == username)).isSome →
      UserRegister_post alg username password CommitOutcome.success s
        = Except.ok (conflictResponse, s) ∧ conflictResponse.status = 409) ∧
    (s.users.find? (fun u => u.username == username) = none →
      ∃ s2, UserRegister_post alg username password CommitOutcome.success s
              = Except.ok (createdResponse, s2) ∧
        createdResponse.status = 201 ∧
        s2.users = s.users ++ [{ id := s.nextId, username := username,
                                 password := alg.hash password }] ∧
        (s2.users.filter (fun u => u.username == username)).length = 1 ∧
        (alg.hash password ≠ password →
          ∀ u ∈ s2.users, u.username = username → u.password ≠ password)) := by
  constructor
  · intro h
    refine ⟨?_, rfl⟩
    simp only [UserRegister_post, h, if_true]
  · intro h
    have hnone : ∀ u ∈ s.users, ¬(u.username == username) = true := List.find?_eq_none.mp h
    refine ⟨{ s with
        users := s.users ++ [{ id := s.nextId, username := username,
                               password := alg.hash password }],
        nextId := s.nextId + 1 }, ?_, rfl, rfl, ?_, ?_⟩
    · simp only [UserRegister_post, h, Option.isSome_none, Bool.false_eq_true, if_false]
    · simp only [List.filter_append]
      have hfil : s.users.filter (fun u => u.username == username) = [] := by
        rw [List.filter_eq_nil_iff]
        exact hnone
      rw [hfil]
      simp
    · intro hne u hu hname
      rcases List.mem_append.mp hu with h1 | h2
      · exact absurd (by simp [hname]) (hnone u h1)
      · have : u = { id := s.nextId, username := username, password := alg.hash password } := by
          simpa using h2
        rw [this]
        simpa using hne

/-- Witness for claim C1 at concrete inputs: registering the taken
username alice yields the 409 conflict with the state unchanged, and
registering the free username bob succeeds. -/
theorem register_conflict_or_create_witness :
    (UserRegister_post modelPbkdf2 "alice" "x" CommitOutcome.success sampleState
      = Except.ok (conflictResponse, sampleState)) ∧
    (∃ s2, UserRegister_post modelPbkdf2 "bob" "pw2" CommitOutcome.success sampleState
      = Except.ok (createdResponse, s2)) := by
  constructor
  · exact ((register_conflict_or_create modelPbkdf2 "alice" "x" sampleState).1 (by decide)).1
  · obtain ⟨s2, hs2, -⟩ :=
      (register_conflict_or_create modelPbkdf2 "bob" "pw2" sampleState).2 (by decide)
    exact ⟨s2, hs2⟩

/-- Claim C2: a login failing because the user is absent and a login
failing because the password does not verify produce identical responses,
both the generic 401 invalid-credentials message. -/
theorem login_failures_indistinguishable (alg : Pbkdf2Sha256) (s1 s2 : AppState)
    (u1 p1 u2 p2 : String) (usr : UserModel)
    (h1 : s1.users.find? (fun u => u.username == u1) = none)
    (h2 : s2.users.find? (fun u => u.username == u2) = some usr)
    (h3 : alg.verify p2 usr.password = false) :
    (UserLogin_post alg u1 p1 s1).1 = LoginResult.err invalidCredentialsResponse ∧
    (UserLogin_post alg u2 p2 s2).1 = LoginResult.err invalidCredentialsResponse ∧
    (UserLogin_post alg u1 p1 s1).1 = (UserLogin_post alg u2 p2 s2).1 ∧
    invalidCredentialsResponse.status = 401 ∧
    invalidCredentialsResponse.body = [("message", Value.str "Invalid credentials.")] := by
  have e1 : (UserLogin_post alg u1 p1 s1).1 = LoginResult.err invalidCredentialsResponse := by
    simp [UserLogin_post, h1]
  have e2 : (UserLogin_post alg u2 p2 s2).1 = LoginResult.err invalidCredentialsResponse := by
    simp [UserLogin_post, h2, h3]
  exact ⟨e1, e2, by rw [e1, e2], rfl, rfl⟩

/-- Witness for claim C2 at concrete inputs: a login for the unregistered
username bob and a login for alice with a wrong password produce the same
401 response. -/
theorem login_failures_indistinguishable_witness :
    (UserLogin_post modelPbkdf2 "bob" "p" sampleState).1
      = (UserLogin_post modelPbkdf2 "alice" "wrong" sampleState).1 := by
  exact (login_failures_indistinguishable modelPbkdf2 sampleState sampleState
    "bob" "p" "alice" "wrong" aliceStored (by decide) (by decide) (by decide)).2.2.1

/-- Claim C3: a login whose user exists and whose password verifies
returns 200 with two distinct tokens: a fresh access token and a refresh
token, both carrying the user's id as identity. -/
theorem login_success_tokens (alg : Pbkdf2Sha256) (username password : String)
    (s : AppState) (usr : UserModel)
    (h1 : s.users.find? (fun u => u.username == username) = some usr)
    (h2 : alg.verify password usr.password = true) :
    ∃ access refreshTok s2,
      UserLogin_post alg username password s = (LoginResult.ok access refreshTok, s2) ∧
      (LoginResult.ok access refreshTok).status = 200 ∧
      access.fresh = true ∧
      access.identity = usr.id ∧
      access.tokenType = TokenType.access ∧
      refreshTok.identity = usr.id ∧
      refreshTok.tokenType = TokenType.refresh ∧
      access ≠ refreshTok ∧
      s2.users = s.users := by
  refine ⟨{ identity := usr.id, jti := s.jtiCounter, tokenType := TokenType.access,
            fresh := true, valid := true, expired := false },
          { identity := usr.id, jti := s.jtiCounter + 1, tokenType := TokenType.refresh,
            fresh := false, valid := true, expired := false },
          { s with jtiCounter := s.jtiCounter + 2 },
          ?_, rfl, rfl, rfl, rfl, rfl, rfl, ?_, rfl⟩
  · simp [UserLogin_post, h1, h2, create_access_token, create_refresh_token]
  · simp

/-- Witness for claim C3 at concrete inputs: logging alice in with her
correct password yields the token pair. -/
theorem login_success_tokens_witness :
    ∃ access refreshTok s2,
      UserLogin_post modelPbkdf2 "alice" "pw1" sampleState
        = (LoginResult.ok access refreshTok, s2) ∧
      access.fresh = true ∧ access ≠ refreshTok := by
  obtain ⟨a, r, s2, he, -, hf, -, -, -, -, hne, -⟩ :=
    login_success_tokens modelPbkdf2 "alice" "pw1" sampleState aliceStored
      (by decide) (by decide)
  exact ⟨a, r, s2, he, hf, hne⟩

/-- Claim C7: under every operation the blocklist grows monotonically,
only logout and refresh ever change it, and adding an identifier is
idempotent. -/
theorem blocklist_monotone (alg : Pbkdf2Sha256) (op : Op) (s : AppState) :
    s.blocklist ⊆ (applyOp alg op s).blocklist ∧
    (op.isBlocklistMutator = false → (applyOp alg op s).blocklist = s.blocklist) ∧
    (∀ b : Finset Nat, ∀ j : Nat, blocklistAdd (blocklistAdd b j) j = blocklistAdd b j) := by
  refine ⟨blocklist_subset_applyOp alg op s, ?_, ?_⟩
  · intro h
    exact applyOp_nonmutator_blocklist alg op s h
  · intro b j
    simp [blocklistAdd, Finset.insert_idem]

/-- Witness for claim C7 at a concrete operation: a user lookup leaves
the blocklist unchanged, hence also grows it monotonically. -/
theorem blocklist_monotone_witness :
    sampleState.blocklist ⊆ (applyOp modelPbkdf2 (Op.getUser 1) sampleState).blocklist ∧
    (applyOp modelPbkdf2 (Op.getUser 1) sampleState).blocklist = sampleState.blocklist ∧
    blocklistAdd (blocklistAdd ∅ 7) 7 = blocklistAdd ∅ 7 := by
  have h := blocklist_monotone modelPbkdf2 (Op.getUser 1) sampleState
  exact ⟨h.1, h.2.1 (by decide), h.2.2 ∅ 7⟩

/-- Claim C4: logout with a valid, unexpired, unrevoked token (of either
type) returns 200 and adds its jti to the blocklist; thereafter, on any
protected route and after any further sequence of operations, the same
token is rejected with the token-revoked response, which is the 401
token_revoked error and differs from the invalid-token response. -/
theorem logout_revokes_token (t : Token) (s : AppState)
    (hv : t.valid = true) (he : t.expired = false) (hb : t.jti ∉ s.blocklist) :
    UserLogout_post (some t) s
      = (logoutOkResponse, { s with blocklist := blocklistAdd s.blocklist t.jti }) ∧
    logoutOkResponse.status = 200 ∧
    (∀ alg ops refreshRequired,
      jwtRequired refreshRequired (some t)
          (applyOps alg ops (UserLogout_post (some t) s).2)
        = some revokedTokenResponse) ∧
    bodyLookup revokedTokenResponse "error" = some (Value.str "token_revoked") ∧
    revokedTokenResponse ≠ invalidTokenResponse ∧
    revokedTokenResponse.status = 401 := by
  have hchk : jwtCheck false t s = none := by
    simp [jwtCheck, hv, he, check_if_token_in_blocklist, hb]
  have hlog : UserLogout_post (some t) s
      = (logoutOkResponse, { s with blocklist := blocklistAdd s.blocklist t.jti }) := by
    simp [UserLogout_post, hchk]
  refine ⟨hlog, rfl, ?_, by decide, by decide, rfl⟩
  intro alg ops refreshRequired
  have hmem : t.jti ∈ (UserLogout_post (some t) s).2.blocklist := by
    rw [hlog]
    exact Finset.mem_insert_self _ _
  have hmem2 : t.jti ∈ (applyOps alg ops (UserLogout_post (some t) s).2).blocklist :=
    blocklist_subset_applyOps alg ops _ hmem
  simp [jwtRequired, jwtCheck, hv, he, check_if_token_in_blocklist, hmem2]

/-- Witness for claim C4 at a concrete token and state: logging a fresh
access token out of the sample state revokes it for later requests. -/
theorem logout_revokes_token_witness :
    UserLogout_post (some { identity := 1, jti := 5, tokenType := TokenType.access,
                            fresh := true, valid := true, expired := false }) sampleState
      = (logoutOkResponse,
         { sampleState with blocklist := blocklistAdd sampleState.blocklist 5 }) ∧
    jwtRequired false
        (some { identity := 1, jti := 5, tokenType := TokenType.access,
                fresh := true, valid := true, expired := false })
        (applyOps modelPbkdf2 [Op.getUser 1]
          (UserLogout_post (some { identity := 1, jti := 5, tokenType := TokenType.access,
                                   fresh := true, valid := true, expired := false })
            sampleState).2)
      = some revokedTokenResponse := by
  have h := logout_revokes_token
    { identity := 1, jti := 5, tokenType := TokenType.access,
      fresh := true, valid := true, expired := false }
    sampleState rfl rfl (by decide)
  exact ⟨h.1, h.2.2.1 modelPbkdf2 [Op.getUser 1] false⟩

/-- Claim C5: the refresh route rejects access tokens with a 401; a
valid, unrevoked refresh token yields a 200 with a non-fresh access token
for the same identity and puts the refresh token's jti on the blocklist,
so presenting the same refresh token again yields the token_revoked
response (single use). -/
theorem refresh_single_use (t : Token) (s : AppState)
    (hv : t.valid = true) (he : t.expired = false) (hb : t.jti ∉ s.blocklist) :
    (t.tokenType = TokenType.access →
      TokenRefresh_post (some t) s = (RefreshResult.err invalidTokenResponse, s) ∧
      invalidTokenResponse.status = 401) ∧
    (t.tokenType = TokenType.refresh →
      ∃ newTok s2,
        TokenRefresh_post (some t) s = (RefreshResult.ok newTok, s2) ∧
        (RefreshResult.ok newTok).status = 200 ∧
        newTok.fresh = false ∧
        newTok.identity = t.identity ∧
        newTok.tokenType = TokenType.access ∧
        s2.blocklist = blocklistAdd s.blocklist t.jti ∧
        TokenRefresh_post (some t) s2 = (RefreshResult.err revokedTokenResponse, s2) ∧
        bodyLookup revokedTokenResponse "error" = some (Value.str "token_revoked")) := by
  constructor
  · intro htype
    refine ⟨?_, rfl⟩
    simp [TokenRefresh_post, jwtCheck, hv, he, check_if_token_in_blocklist, hb, htype]
  · intro htype
    have hchk : jwtCheck true t s = none := by
      simp [jwtCheck, hv, he, check_if_token_in_blocklist, hb, htype]
    refine ⟨{ identity := t.identity, jti := s.jtiCounter, tokenType := TokenType.access,
              fresh := false, valid := true, expired := false },
            { s with jtiCounter := s.jtiCounter + 1,
                     blocklist := blocklistAdd s.blocklist t.jti },
            ?_, rfl, rfl, rfl, rfl, rfl, ?_, by decide⟩
    · simp [TokenRefresh_post, hchk, create_access_token, blocklistAdd]
    · have hmem : t.jti ∈ blocklistAdd s.blocklist t.jti := Finset.mem_insert_self _ _
      simp [TokenRefresh_post, jwtCheck, hv, he, check_if_token_in_blocklist, hmem]

/-- Witness for claim C5 at a concrete refresh token and a concrete
access token: the refresh route rejects the access token and consumes
the refresh token exactly once. -/
theorem refresh_single_use_witness :
    (TokenRefresh_post (some { identity := 1, jti := 6, tokenType := TokenType.access,
                               fresh := true, valid := true, expired := false }) sampleState).1
      = RefreshResult.err invalidTokenResponse ∧
    (∃ newTok s2,
      TokenRefresh_post (some { identity := 1, jti := 7, tokenType := TokenType.refresh,
                                fresh := false, valid := true, expired := false }) sampleState
        = (RefreshResult.ok newTok, s2) ∧
      newTok.fresh = false ∧
      TokenRefresh_post (some { identity := 1, jti := 7, tokenType := TokenType.refresh,
                                fresh := false, valid := true, expired := false }) s2
        = (RefreshResult.err revokedTokenResponse, s2)) := by
  constructor
  · have h := refresh_single_use
      { identity := 1, jti := 6, tokenType := TokenType.access,
        fresh := true, valid := true, expired := false }
      sampleState rfl rfl (by decide)
    rw [(h.1 rfl).1]
  · obtain ⟨nt, s2, h1, -, h3, -, -, -, h7, -⟩ :=
      (refresh_single_use
        { identity := 1, jti := 7, tokenType := TokenType.refresh,
          fresh := false, valid := true, expired := false }
        sampleState rfl rfl (by decide)).2 rfl
    exact ⟨nt, s2, h1, h3, h7⟩

/-- Counterexample to claim C6 at a concrete input: registering the free
username bob while the persistence commit fails with an integrity error
yields the raw storage error, not a 409 conflict response. -/
theorem register_commit_failure_not_conflict :
    sampleState.users.find? (fun u => u.username == "bob") = none ∧
    UserRegister_post modelPbkdf2 "bob" "pw2" (CommitOutcome.failure "IntegrityError")
        sampleState = Except.error "IntegrityError" ∧
    surfacedAsConflict (UserRegister_post modelPbkdf2 "bob" "pw2"
        (CommitOutcome.failure "IntegrityError") sampleState) = false := by
  exact ⟨by decide, by rfl, by rfl⟩

/-- Claim C6 as amended: the register handler wraps insert-and-commit in
no error handling, so a commit failure propagates as the raw storage
error; the 409 conflict arises only from the username pre-check. -/
theorem register_commit_failure_propagates (alg : Pbkdf2Sha256)
    (username password e : String) (s : AppState) :
    (s.users.find? (fun u => u.username == username) = none →
      UserRegister_post alg username password (CommitOutcome.failure e) s
        = Except.error e) ∧
    ((s.users.find? (fun u => u.username == username)).isSome →
      UserRegister_post alg username password (CommitOutcome.failure e) s
        = Except.ok (conflictResponse, s)) := by
  constructor
  · intro h
    simp [UserRegister_post, h]
  · intro h
    simp [UserRegister_post, h]

/-- Witness for the amended claim C6 at concrete inputs: a failing commit
for the free username bob propagates, while the taken username alice
still answers 409 from the pre-check. -/
theorem register_commit_failure_propagates_witness :
    UserRegister_post modelPbkdf2 "bob" "pw2" (CommitOutcome.failure "disk full")
        sampleState = Except.error "disk full" ∧
    UserRegister_post modelPbkdf2 "alice" "pw2" (CommitOutcome.failure "disk full")
        sampleState = Except.ok (conflictResponse, sampleState) := by
  have h := register_commit_failure_propagates modelPbkdf2 "bob" "pw2" "disk full" sampleState
  have h2 := register_commit_failure_propagates modelPbkdf2 "alice" "pw2" "disk full" sampleState
  exact ⟨h.1 (by decide), h2.2 (by decide)⟩

/-- Claim C8: getting a stored user returns 200 with a body holding
exactly the id and username fields and never a password field; getting or
deleting an absent id returns 404. -/
theorem user_get_delete_contract (user_id : Nat) (s : AppState) :
    (∀ u, s.users.find? (fun v => v.id == user_id) = some u →
      User_get user_id s
        = ({ status := 200,
             body := [("id", Value.nat u.id), ("username", Value.str u.username)] }, s) ∧
      (User_get user_id s).1.body.map Prod.fst = ["id", "username"] ∧
      (∀ kv ∈ (User_get user_id s).1.body, kv.1 ≠ "password")) ∧
    (s.users.find? (fun v => v.id == user_id) = none →
      User_get user_id s = (notFoundResponse, s) ∧
      User_delete user_id s = (notFoundResponse, s) ∧
      notFoundResponse.status = 404) := by
  constructor
  · intro u hu
    refine ⟨by simp [User_get, hu], by simp [User_get, hu], ?_⟩
    simp only [User_get, hu, List.mem_cons, List.not_mem_nil, or_false]
    rintro kv (rfl | rfl) <;> simp
  · intro h
    exact ⟨by simp [User_get, h], by simp [User_delete, h], rfl⟩

/-- Witness for claim C8 at concrete inputs: user id 1 is stored and
dumps as id and username only; id 99 is absent and both routes answer
404. -/
theorem user_get_delete_contract_witness :
    User_get 1 sampleState
      = ({ status := 200,
           body := [("id", Value.nat 1), ("username", Value.str "alice")] }, sampleState) ∧
    User_get 99 sampleState = (notFoundResponse, sampleState) ∧
    User_delete 99 sampleState = (notFoundResponse, sampleState) := by
  have h1 := (user_get_delete_contract 1 sampleState).1 aliceStored (by decide)
  have h2 := (user_get_delete_contract 99 sampleState).2 (by decide)
  exact ⟨h1.1, h2.1, h2.2.1⟩

/-- Claim C10: deleting a user leaves the blocklist unchanged, the token
checks behave identically before and after (they read only the token and
the blocklist, never the user store), and a still-valid token — including
one whose identity is the deleted user — keeps being accepted, refresh
included. -/
theorem delete_user_frame (user_id : Nat) (s : AppState) :
    (User_delete user_id s).2.blocklist = s.blocklist ∧
    (∀ refreshRequired tok,
      jwtRequired refreshRequired tok ((User_delete user_id s).2)
        = jwtRequired refreshRequired tok s) ∧
    (∀ refreshRequired t s1 s2, s1.blocklist = s2.blocklist →
      jwtCheck refreshRequired t s1 = jwtCheck refreshRequired t s2) ∧
    (∀ t : Token, t.valid = true → t.expired = false → t.jti ∉ s.blocklist →
      jwtCheck false t ((User_delete user_id s).2) = none ∧
      (t.tokenType = TokenType.refresh →
        ∃ nt s3, TokenRefresh_post (some t) ((User_delete user_id s).2)
            = (RefreshResult.ok nt, s3) ∧ nt.identity = t.identity)) := by
  have hb := User_delete_blocklist user_id s
  refine ⟨hb, ?_, ?_, ?_⟩
  · intro refreshRequired tok
    cases tok with
    | none => rfl
    | some t => exact jwtCheck_blocklist_congr refreshRequired t _ s hb
  · intro refreshRequired t s1 s2 h
    exact jwtCheck_blocklist_congr refreshRequired t s1 s2 h
  · intro t hv he hmem
    have hmem2 : t.jti ∉ (User_delete user_id s).2.blocklist := by
      rw [hb]; exact hmem
    constructor
    · simp [jwtCheck, hv, he, check_if_token_in_blocklist, hmem2]
    · intro htype
      have hchk : jwtCheck true t ((User_delete user_id s).2) = none := by
        simp [jwtCheck, hv, he, check_if_token_in_blocklist, hmem2, htype]
      refine ⟨{ identity := t.identity, jti := ((User_delete user_id s).2).jtiCounter,
                tokenType := TokenType.access, fresh := false,
                valid := true, expired := false },
              { (User_delete user_id s).2 with
                  jtiCounter := ((User_delete user_id s).2).jtiCounter + 1,
                  blocklist := blocklistAdd ((User_delete user_id s).2).blocklist t.jti },
              ?_, rfl⟩
      simp [TokenRefresh_post, hchk, create_access_token, blocklistAdd]

/-- Witness for claim C10 at concrete inputs: deleting user 1 keeps the
blocklist empty and the refresh token 7 of the deleted user 1 is still
accepted afterwards. -/
theorem delete_user_frame_witness :
    (User_delete 1 sampleState).2.blocklist = sampleState.blocklist ∧
    (∃ nt s3, TokenRefresh_post
        (some { identity := 1, jti := 7, tokenType := TokenType.refresh,
                fresh := false, valid := true, expired := false })
        ((User_delete 1 sampleState).2)
      = (RefreshResult.ok nt, s3) ∧ nt.identity = 1) := by
  have h := delete_user_frame 1 sampleState
  have h2 := (h.2.2.2 { identity := 1, jti := 7, tokenType := TokenType.refresh,
                        fresh := false, valid := true, expired := false }
    rfl rfl (by decide)).2 rfl
  exact ⟨h.1, h2⟩

/-- Counterexample to claim C9 at a concrete schema: on a schema holding
both the users table and the legacy User table — the shape the migration
itself presupposes — the upgrade is not the pure password-column
widening, because it also drops the legacy User table. -/
theorem migration_upgrade_not_only_widening :
    migration_upgrade demoSchema
      ≠ alter_column "users" "password" (ColType.varchar 200) demoSchema := by
  decide

/-- Claim C9 as amended: the upgrade widens users.password from 80 to 200
characters AND drops the legacy User table, touching nothing else; the
downgrade narrows the column back to 80 characters and recreates the
legacy User table shape. -/
theorem migration_effects (schema : Schema) (tu : Table) (pc : Column)
    (h1 : lookup_table schema "users" = some tu)
    (h2 : lookup_column tu "password" = some pc) :
    lookup_table (migration_upgrade schema) "User" = none ∧
    (∃ tu2, lookup_table (migration_upgrade schema) "users" = some tu2 ∧
      lookup_column tu2 "password" = some { pc with ctype := ColType.varchar 200 }) ∧
    (∃ tu3, lookup_table (migration_downgrade schema) "users" = some tu3 ∧
      lookup_column tu3 "password" = some { pc with ctype := ColType.varchar 80 }) ∧
    legacyUserTable ∈ migration_downgrade schema ∧
    (∀ t ∈ schema, t.name ≠ "users" → t.name ≠ "User" → t ∈ migration_upgrade schema) := by
  have htu := List.find?_some h1
  simp only at htu
  have halter200 : alterTableFn "users" "password" (ColType.varchar 200) tu
      = { tu with columns := tu.columns.map (fun c =>
            if c.name == "password" then { c with ctype := ColType.varchar 200 } else c) } := by
    unfold alterTableFn
    rw [htu]
    simp
  have halter80 : alterTableFn "users" "password" (ColType.varchar 80) tu
      = { tu with columns := tu.columns.map (fun c =>
            if c.name == "password" then { c with ctype := ColType.varchar 80 } else c) } := by
    unfold alterTableFn
    rw [htu]
    simp
  refine ⟨?_, ?_, ?_, ?_, ?_⟩
  · unfold migration_upgrade
    rw [lookup_table_alter, lookup_table_drop_self]
    rfl
  · refine ⟨alterTableFn "users" "password" (ColType.varchar 200) tu, ?_, ?_⟩
    · unfold migration_upgrade
      rw [lookup_table_alter, lookup_table_drop_other "User" "users" (by decide), h1]
      rfl
    · rw [halter200]
      exact lookup_column_alter "password" (ColType.varchar 200) tu pc h2
  · refine ⟨alterTableFn "users" "password" (ColType.varchar 80) tu, ?_, ?_⟩
    · unfold migration_downgrade create_table lookup_table
      rw [List.find?_append]
      have hl : lookup_table (alter_column "users" "password" (ColType.varchar 80) schema)
          "users" = some (alterTableFn "users" "password" (ColType.varchar 80) tu) := by
        rw [lookup_table_alter, h1]
        rfl
      unfold lookup_table at hl
      rw [hl]
      rfl
    · rw [halter80]
      exact lookup_column_alter "password" (ColType.varchar 80) tu pc h2
  · simp [migration_downgrade, create_table]
  · intro t ht hnu hnU
    have hfil : t ∈ drop_table "User" schema := by
      unfold drop_table
      exact List.mem_filter.mpr ⟨ht, by simp [hnU]⟩
    unfold migration_upgrade alter_column
    refine List.mem_map.mpr ⟨t, hfil, ?_⟩
    simp [alterTableFn, hnu]

/-- Witness for the amended claim C9 at the concrete demo schema. -/
theorem migration_effects_witness :
    lookup_table (migration_upgrade demoSchema) "User" = none ∧
    legacyUserTable ∈ migration_downgrade demoSchema ∧
    (∃ tu2, lookup_table (migration_upgrade demoSchema) "users" = some tu2 ∧
      lookup_column tu2 "password"
        = some { name := "password", ctype := ColType.varchar 200,
                 nullable := false, autoincrement := false }) := by
  have h := migration_effects demoSchema usersTable80
    { name := "password", ctype := ColType.varchar 80, nullable := false, autoincrement := false }
    (by decide) (by decide)
  exact ⟨h.1, h.2.2.2.1, h.2.1⟩
